import Mathlib

/-!
# Weather API client (`script.js`): pagination controller and weather lookup

A shallow embedding of the browser script.  The script owns two global
variables (`currentPage`, `totalPages`) and reads and writes a handful of DOM
elements.  Both are collected in one record, `State`, and every JavaScript
function becomes a function `State → State`.

Modelling conventions

* JavaScript strings are Lean `String`s (one Lean character per UTF-16 code
  unit, i.e. strings of the Basic Multilingual Plane).
* Page numbers are JavaScript numbers holding integers; they are `Int` here.
* `String.prototype.toUpperCase` is a library method, not part of the script:
  its per-character mapping is a parameter `upper : Char → String` (the result
  is a string because a character such as `ß` upper-cases to two characters).
* An `async` function is cut at its `await`: the `…Start` function is the
  synchronous prefix that runs inside the caller (up to and including the call
  of `fetch`), the `…Resume` function is the continuation that runs when the
  browser delivers the outcome of the request.  The script does nothing between
  `await fetch(…)` and `await response.json()` except test `response.ok`, so
  both awaits are delivered together as one `FetchResult`.
* `State.pending` holds the requests that were issued and not yet answered, and
  `State.calls` is a ghost log of the calls of `fetchCities`, `fetchWeather`
  and `displayWeather`; they make "no request is issued" and "is not called"
  statable.  Neither is read by the script.
-/

namespace WeatherClient

/-! ## Data exchanged with the backend -/

/-- An element of the `data` array of a city page: `{ name, country }`. -/
structure City where
  name : String
  country : String
  deriving DecidableEq, Repr

/-- The JSON body of `GET /api/cities`: `{ data, pageNumber, totalPages }`. -/
structure CitiesPage where
  data : List City
  pageNumber : Int
  totalPages : Int
  deriving DecidableEq, Repr

/-- The JSON body of `GET /api/weather`.  Every field is used by the script
only inside a template literal, so each field is the string that the template
literal inserts for it. -/
structure WeatherData where
  city : String
  temperature : String
  description : String
  humidity : String
  windSpeed : String
  deriving DecidableEq, Repr

/-- What the script reads from a `Response`: `ok`, `status`, `statusText` and
the outcome of `await response.json()` (the parsed body, or the message of the
error with which the promise rejects). -/
structure Response (α : Type) where
  ok : Bool
  status : Nat
  statusText : String
  json : Except String α

/-- Outcome of `await fetch(url)`: the promise rejects with an error carrying
`message` (network error), or resolves with a response. -/
inductive FetchResult (α : Type) where
  | rejected (message : String)
  | resolved (response : Response α)

/-- A request handed to `fetch`. -/
inductive Request where
  | cities (page : Int) (pageSize : Nat)
  | weather (cityName : String)
  deriving DecidableEq, Repr

/-- Ghost log entries: calls of `fetchCities`, `fetchWeather` and `displayWeather`. -/
inductive Call where
  | fetchCities (page : Int)
  | fetchWeather (cityName : String)
  | displayWeather (data : WeatherData)
  deriving DecidableEq, Repr

/-- An `<option>` child of `citySelect`. -/
structure SelectOption where
  value : String
  textContent : String
  disabled : Bool
  selected : Bool
  deriving DecidableEq, Repr

/-! ## Program state -/

/-- The two global variables of the script, the properties of the DOM elements
it touches, the requests in flight and the ghost call log. -/
structure State where
  /-- Global variable `let currentPage`. -/
  currentPage : Int
  /-- Global variable `let totalPages`. -/
  totalPages : Int
  /-- Children of `citySelect` (its `innerHTML`). -/
  citySelectOptions : List SelectOption
  /-- Property `citySelect.value`. -/
  citySelectValue : String
  /-- Property `citySelect.disabled`. -/
  citySelectDisabled : Bool
  /-- Property `getWeatherBtn.disabled`. -/
  getWeatherBtnDisabled : Bool
  /-- Property `weatherResult.innerHTML`. -/
  weatherResult : String
  /-- Property `errorMessage.textContent`. -/
  errorMessage : String
  /-- Property `prevPageBtn.disabled`. -/
  prevPageBtnDisabled : Bool
  /-- Property `nextPageBtn.disabled`. -/
  nextPageBtnDisabled : Bool
  /-- Property `currentPageSpan.textContent`. -/
  currentPageSpan : String
  /-- Requests issued by `fetch` and not yet answered. -/
  pending : List Request
  /-- Ghost log of calls, oldest first. -/
  calls : List Call
  deriving DecidableEq, Repr

/-- Constant `const pageSize = 50;`. -/
def pageSize : Nat := 50

/-- State right after the script has been loaded: `currentPage = 1`,
`totalPages = 4`, nothing requested, nothing called.  The DOM part comes from
the HTML page, which is not part of the script, and is taken from `dom`. -/
def initialState (dom : State) : State :=
  { dom with currentPage := 1, totalPages := 4, pending := [], calls := [] }

/-! ## String helpers of JavaScript used by the script -/

/-- JavaScript `s.charAt(i)`: the one-character string at index `i`, or `""`. -/
def charAt (s : String) (i : Nat) : String :=
  match s.toList.get? i with
  | some c => String.singleton c
  | none => ""

/-- JavaScript `s.slice(start)` for a non-negative `start`. -/
def slice (s : String) (start : Nat) : String :=
  String.mk (s.toList.drop start)

/-- JavaScript `s.toUpperCase()`, character by character through `upper`. -/
def toUpperCase (upper : Char → String) (s : String) : String :=
  String.join (s.toList.map upper)

/-- Upper-casing of ASCII letters; an instance for `upper`. -/
def asciiUpper (c : Char) : String :=
  String.singleton c.toUpper

/-- Function `capitalizeFirstLetter(string)` -/
def capitalizeFirstLetter (upper : Char → String) (string : String) : String :=
  toUpperCase upper (charAt string 0) ++ slice string 1

/-! ## Message helpers -/

/-- Function `clearMessages()` -/
def clearMessages (s : State) : State :=
  { s with weatherResult := "", errorMessage := "" }

/-- Function `displayMessage(message)` -/
def displayMessage (message : String) (s : State) : State :=
  { s with weatherResult := "<p>" ++ message ++ "</p>" }

/-- Function `displayError(message)` -/
def displayError (message : String) (s : State) : State :=
  { s with errorMessage := message }

/-- The template literal of `displayWeather`, with the description already
passed through `capitalizeFirstLetter`. -/
def weatherTemplate (city temperature description humidity windSpeed : String) : String :=
  "\n        <h2>Weather in " ++ city ++ "</h2>\n        <p><strong>Temperature:</strong> "
    ++ temperature ++ "</p>\n        <p><strong>Description:</strong> "
    ++ description ++ "</p>\n        <p><strong>Humidity:</strong> "
    ++ humidity ++ "</p>\n        <p><strong>Wind Speed:</strong> "
    ++ windSpeed ++ "</p>\n    "

/-- Function `displayWeather(data)` -/
def displayWeather (upper : Char → String) (data : WeatherData) (s : State) : State :=
  { s with
    weatherResult :=
      weatherTemplate data.city data.temperature
        (capitalizeFirstLetter upper data.description) data.humidity data.windSpeed
    calls := s.calls ++ [Call.displayWeather data] }

/-! ## Pagination controller -/

/-- The option `<option value="" disabled selected>Select a city</option>`. -/
def placeholderOption : SelectOption :=
  { value := "", textContent := "Select a city", disabled := true, selected := true }

/-- The option built by the body of `cities.forEach` for one city. -/
def cityOption (city : City) : SelectOption :=
  { value := city.name, textContent := city.name ++ ", " ++ city.country,
    disabled := false, selected := false }

/-- Function `populateCitySelect(cities)`.  Replacing `innerHTML` leaves the
placeholder as the selected option, so `citySelect.value` becomes `""`. -/
def populateCitySelect (cities : List City) (s : State) : State :=
  { s with
    citySelectOptions := placeholderOption :: cities.map cityOption
    citySelectValue := "" }

/-- Synchronous prefix of `fetchCities(page)`: `clearMessages()`,
`displayMessage("Loading cities...")`, and the call of `fetch`. -/
def fetchCitiesStart (page : Int) (s : State) : State :=
  let s := { s with calls := s.calls ++ [Call.fetchCities page] }
  let s := clearMessages s
  let s := displayMessage "Loading cities..." s
  { s with pending := s.pending ++ [Request.cities page pageSize] }

/-- The `try` block of `fetchCities(page)` after the request has been
answered: the state at the end of the block, or the message of the error
thrown in it. -/
def fetchCitiesTry (page : Int) (r : FetchResult CitiesPage) (s : State) :
    Except String State :=
  match r with
  | .rejected message => .error message
  | .resolved response =>
    if !response.ok then
      .error ("Error fetching cities: " ++ toString response.status ++ " "
        ++ response.statusText)
    else
      match response.json with
      | .error message => .error message
      | .ok data =>
        let s := { s with totalPages := data.totalPages }
        let s := { s with currentPage := data.pageNumber }
        let s := { s with currentPageSpan :=
          "Page " ++ toString data.pageNumber ++ " of " ++ toString data.totalPages }
        let s := { s with prevPageBtnDisabled := decide (page = 1) }
        let s := { s with nextPageBtnDisabled := decide (page = s.totalPages) }
        let s := populateCitySelect data.data s
        let s := { s with citySelectDisabled := false }
        let s := { s with getWeatherBtnDisabled := false }
        .ok (clearMessages s)

/-- Continuation of `fetchCities(page)`: the `try` block, and the `catch`
block when it throws. -/
def fetchCitiesResume (page : Int) (r : FetchResult CitiesPage) (s : State) : State :=
  match fetchCitiesTry page r s with
  | .ok s' => s'
  | .error _ => displayError "Failed to load cities. Please try again later." s

/-- The click listener of `prevPageBtn`. -/
def prevPageBtnClick (s : State) : State :=
  if s.currentPage > 1 then
    let s := { s with currentPage := s.currentPage - 1 }
    fetchCitiesStart s.currentPage s
  else s

/-- The click listener of `nextPageBtn`. -/
def nextPageBtnClick (s : State) : State :=
  if s.currentPage < s.totalPages then
    let s := { s with currentPage := s.currentPage + 1 }
    fetchCitiesStart s.currentPage s
  else s

/-- The `DOMContentLoaded` listener. -/
def domContentLoaded (s : State) : State :=
  fetchCitiesStart s.currentPage s

/-! ## Weather lookup -/

/-- Synchronous prefix of `fetchWeather(cityName)`. -/
def fetchWeatherStart (cityName : String) (s : State) : State :=
  let s := { s with calls := s.calls ++ [Call.fetchWeather cityName] }
  let s := clearMessages s
  let s := displayMessage "Fetching weather data..." s
  { s with pending := s.pending ++ [Request.weather cityName] }

/-- The `try` block of `fetchWeather` after the request has been answered. -/
def fetchWeatherTry (upper : Char → String) (r : FetchResult WeatherData) (s : State) :
    Except String State :=
  match r with
  | .rejected message => .error message
  | .resolved response =>
    if !response.ok then
      if response.status = 404 then
        .error "City not found."
      else
        .error ("Error fetching weather: " ++ toString response.status ++ " "
          ++ response.statusText)
    else
      match response.json with
      | .error message => .error message
      | .ok data => .ok (displayWeather upper data s)

/-- Continuation of `fetchWeather`: the `try` block, and the `catch` block
`displayError(error.message || "Failed to fetch weather data. …")`, where an
empty message is falsy. -/
def fetchWeatherResume (upper : Char → String) (r : FetchResult WeatherData) (s : State) :
    State :=
  match fetchWeatherTry upper r s with
  | .ok s' => s'
  | .error message =>
    displayError
      (if message ≠ "" then message
       else "Failed to fetch weather data. Please try again later.") s

/-- The click listener of `getWeatherBtn`; a string is truthy when it is not
empty. -/
def getWeatherBtnClick (s : State) : State :=
  let selectedCity := s.citySelectValue
  if selectedCity ≠ "" then fetchWeatherStart selectedCity s
  else displayError "Please select a city." s

/-! ## The event loop -/

/-- What the browser can hand to the script.  A response event names the
position in `State.pending` of the request it answers, so responses may arrive
in any order.  Clicks are accepted whatever the `disabled` flags say, and the
user may set the selection to any value: a superset of what a browser allows. -/
inductive Event where
  | domContentLoaded
  | prevPageClick
  | nextPageClick
  | getWeatherClick
  | selectCity (value : String)
  | citiesResponse (i : Nat) (r : FetchResult CitiesPage)
  | weatherResponse (i : Nat) (r : FetchResult WeatherData)

/-- One turn of the event loop; `none` when the event cannot happen (a
response for a request that is not in flight). -/
def step (upper : Char → String) (s : State) : Event → Option State
  | .domContentLoaded => some (domContentLoaded s)
  | .prevPageClick => some (prevPageBtnClick s)
  | .nextPageClick => some (nextPageBtnClick s)
  | .getWeatherClick => some (getWeatherBtnClick s)
  | .selectCity value => some { s with citySelectValue := value }
  | .citiesResponse i r =>
    match s.pending.get? i with
    | some (.cities page _) =>
      some (fetchCitiesResume page r { s with pending := s.pending.eraseIdx i })
    | _ => none
  | .weatherResponse i r =>
    match s.pending.get? i with
    | some (.weather _) =>
      some (fetchWeatherResume upper r { s with pending := s.pending.eraseIdx i })
    | _ => none

/-- Runs a sequence of events, oldest first. -/
def run (upper : Char → String) (s : State) : List Event → Option State
  | [] => some s
  | e :: es =>
    match step upper s e with
    | some s' => run upper s' es
    | none => none

/-- A response event that is a successful city page: the request resolved,
`response.ok` holds and the body parsed. -/
def Event.isCitiesSuccess : Event → Bool
  | .citiesResponse _ (.resolved response) =>
    response.ok && (match response.json with | .ok _ => true | .error _ => false)
  | _ => false

/-- Whether the page carried by a successful city-page response satisfies
`1 ≤ pageNumber ≤ totalPages`; every other event passes. -/
def Event.pageInRange : Event → Bool
  | .citiesResponse _ (.resolved response) =>
    match response.json with
    | .ok data => !response.ok || (decide (1 ≤ data.pageNumber) && decide (data.pageNumber ≤ data.totalPages))
    | .error _ => true
  | _ => true

/-- The page-state invariant `1 ≤ currentPage ≤ totalPages`. -/
def PageInvariant (s : State) : Prop :=
  1 ≤ s.currentPage ∧ s.currentPage ≤ s.totalPages

/-! ## Sample data -/

/-- A DOM as an HTML page could provide it: empty areas, controls disabled. -/
def sampleDom : State :=
  { currentPage := 1, totalPages := 4,
    citySelectOptions := [placeholderOption], citySelectValue := "",
    citySelectDisabled := true, getWeatherBtnDisabled := true,
    weatherResult := "", errorMessage := "",
    prevPageBtnDisabled := true, nextPageBtnDisabled := false,
    currentPageSpan := "", pending := [], calls := [] }

/-- A weather body with the description `clear sky`. -/
def sampleWeather : WeatherData :=
  { city := "Paris", temperature := "21", description := "clear sky",
    humidity := "40", windSpeed := "3" }

/-- A state that shows a weather result for Paris, with Paris selected. -/
def stateShowingParis : State :=
  { sampleDom with
    citySelectOptions := [placeholderOption, cityOption ⟨"Paris", "FR"⟩]
    citySelectValue := "Paris"
    citySelectDisabled := false, getWeatherBtnDisabled := false
    weatherResult := weatherTemplate "Paris" "21" "Clear sky" "40" "3"
    currentPageSpan := "Page 1 of 4" }

/-- A state on the last page: `currentPage = totalPages = 4`. -/
def stateOnLastPage : State :=
  { stateShowingParis with
    currentPage := 4
    currentPageSpan := "Page 4 of 4"
    prevPageBtnDisabled := false
    nextPageBtnDisabled := true }

/-- A successful city-page outcome carrying `pageNumber` and `totalPages`. -/
def citiesSuccess (status : Nat) (statusText : String) (data : CitiesPage) :
    FetchResult CitiesPage :=
  .resolved { ok := true, status := status, statusText := statusText, json := .ok data }

/-- A request that failed for `fetchCities` in the sense of the contract: the
promise of `fetch` rejected (network error), or the response has a non-success
status (`response.ok` is false). -/
def FetchResult.isFailure {α : Type} : FetchResult α → Bool
  | .rejected _ => true
  | .resolved response => !response.ok

/-- A response with a non-success status: `response.ok` is false. -/
def httpError {α : Type} (status : Nat) (statusText : String) (json : Except String α) :
    FetchResult α :=
  .resolved { ok := false, status := status, statusText := statusText, json := json }

/-- A session: the page loads, page 1 of 3 arrives, the user clicks "next"
twice, the second request fails, the first is answered with page 2 of 3, the
user clicks "previous", and that request is answered with page 1 of 3. -/
def sampleSession : List Event :=
  [ .domContentLoaded,
    .citiesResponse 0 (citiesSuccess 200 "OK" ⟨[⟨"Paris", "FR"⟩], 1, 3⟩),
    .nextPageClick,
    .nextPageClick,
    .citiesResponse 1 (.rejected "Failed to fetch"),
    .citiesResponse 0 (citiesSuccess 200 "OK" ⟨[], 2, 3⟩),
    .prevPageClick,
    .citiesResponse 0 (citiesSuccess 200 "OK" ⟨[⟨"Paris", "FR"⟩], 1, 3⟩) ]

/-- A successful weather outcome: `response.ok` holds and the body parsed. -/
def weatherSuccess (status : Nat) (statusText : String) (data : WeatherData) :
    FetchResult WeatherData :=
  .resolved { ok := true, status := status, statusText := statusText, json := .ok data }

/-- The state that shows a weather result for Paris, with the selection put
back on the placeholder. -/
def stateShowingParisUnselected : State :=
  { stateShowingParis with citySelectValue := "" }

/-! ## Navigation at the ends of the page range -/

/-- C1: when `currentPage = 1`, whatever `totalPages` is, the listener of the
"previous" button returns the state it was given: no request is added to
`pending`, `fetchCities` is not logged in `calls`, and `currentPage`,
`totalPages` and every DOM property keep their values. -/
theorem prevPageBtnClick_first_page_noop (s : State) (h : s.currentPage = 1) :
    prevPageBtnClick s = s ∧ (prevPageBtnClick s).pending = s.pending
      ∧ (prevPageBtnClick s).calls = s.calls := by
  have hs : prevPageBtnClick s = s := by
    unfold prevPageBtnClick
    rw [if_neg (by omega)]
  exact ⟨hs, by rw [hs], by rw [hs]⟩

/-- Witness of C1 on the sample DOM, which is on page 1 of 4. -/
theorem prevPageBtnClick_first_page_noop_witness :
    sampleDom.currentPage = 1 ∧ prevPageBtnClick sampleDom = sampleDom
      ∧ (prevPageBtnClick sampleDom).pending = sampleDom.pending
      ∧ (prevPageBtnClick sampleDom).calls = sampleDom.calls :=
  ⟨by decide, prevPageBtnClick_first_page_noop sampleDom (by decide)⟩

/-- C2: when `currentPage = totalPages`, the listener of the "next" button
returns the state it was given: no request is added to `pending`,
`fetchCities` is not logged in `calls`, and `currentPage`, `totalPages` and
every DOM property keep their values. -/
theorem nextPageBtnClick_last_page_noop (s : State) (h : s.currentPage = s.totalPages) :
    nextPageBtnClick s = s ∧ (nextPageBtnClick s).pending = s.pending
      ∧ (nextPageBtnClick s).calls = s.calls := by
  have hs : nextPageBtnClick s = s := by
    unfold nextPageBtnClick
    rw [if_neg (by omega)]
  exact ⟨hs, by rw [hs], by rw [hs]⟩

/-- Witness of C2 on a state that is on page 4 of 4. -/
theorem nextPageBtnClick_last_page_noop_witness :
    stateOnLastPage.currentPage = stateOnLastPage.totalPages
      ∧ nextPageBtnClick stateOnLastPage = stateOnLastPage
      ∧ (nextPageBtnClick stateOnLastPage).pending = stateOnLastPage.pending
      ∧ (nextPageBtnClick stateOnLastPage).calls = stateOnLastPage.calls :=
  ⟨by decide, nextPageBtnClick_last_page_noop stateOnLastPage (by decide)⟩

/-! ## Successful city-page responses -/

/-- The state at the end of the `try` block of `fetchCities(page)` for a
successful response. -/
theorem fetchCitiesResume_success (page : Int) (status : Nat) (statusText : String)
    (data : CitiesPage) (s : State) :
    fetchCitiesResume page (citiesSuccess status statusText data) s =
      { s with
        totalPages := data.totalPages
        currentPage := data.pageNumber
        currentPageSpan :=
          "Page " ++ toString data.pageNumber ++ " of " ++ toString data.totalPages
        prevPageBtnDisabled := decide (page = 1)
        nextPageBtnDisabled := decide (page = data.totalPages)
        citySelectOptions := placeholderOption :: data.data.map cityOption
        citySelectValue := ""
        citySelectDisabled := false
        getWeatherBtnDisabled := false
        weatherResult := ""
        errorMessage := "" } := by
  simp [fetchCitiesResume, fetchCitiesTry, citiesSuccess, populateCitySelect, clearMessages]

/-- C3, as stated, fails: requesting page 1 and receiving a successful response
with `pageNumber = 2`, `totalPages = 4` leaves the "previous" control disabled,
so it is not true that both controls end up enabled for every requested page. -/
theorem fetchCities_page2of4_counterexample :
    ¬ (∀ (n : Int) (s : State),
        (fetchCitiesResume n (citiesSuccess 200 "OK" ⟨[], 2, 4⟩) s).prevPageBtnDisabled = false
        ∧ (fetchCitiesResume n (citiesSuccess 200 "OK" ⟨[], 2, 4⟩) s).nextPageBtnDisabled = false
        ∧ (fetchCitiesResume n (citiesSuccess 200 "OK" ⟨[], 2, 4⟩) s).currentPageSpan
            = "Page 2 of 4") := by
  intro h
  have h1 := (h 1 sampleDom).1
  revert h1
  decide

/-- C3, amended: for every requested page `n` and every prior state, a
successful response with `pageNumber = 2`, `totalPages = 4` sets the page label
to exactly `Page 2 of 4`; the "previous" control ends up enabled exactly when
`n ≠ 1` and the "next" control exactly when `n ≠ 4`, so both are enabled for
every requested page other than 1 and 4. -/
theorem fetchCities_page2of4 (n : Int) (s : State) (status : Nat) (statusText : String)
    (cities : List City) :
    (fetchCitiesResume n (citiesSuccess status statusText ⟨cities, 2, 4⟩) s).currentPageSpan
        = "Page 2 of 4"
      ∧ ((fetchCitiesResume n (citiesSuccess status statusText ⟨cities, 2, 4⟩)
            s).prevPageBtnDisabled = false ↔ n ≠ 1)
      ∧ ((fetchCitiesResume n (citiesSuccess status statusText ⟨cities, 2, 4⟩)
            s).nextPageBtnDisabled = false ↔ n ≠ 4) := by
  rw [fetchCitiesResume_success]
  refine ⟨?_, ?_, ?_⟩
  · show "Page " ++ toString (2 : Int) ++ " of " ++ toString (4 : Int) = "Page 2 of 4"
    decide
  · simp
  · simp

/-- Witness of the amended C3: page 2 requested, both controls enabled. -/
theorem fetchCities_page2of4_witness :
    (fetchCitiesResume 2 (citiesSuccess 200 "OK" ⟨[], 2, 4⟩) sampleDom).prevPageBtnDisabled
        = false
      ∧ (fetchCitiesResume 2 (citiesSuccess 200 "OK" ⟨[], 2, 4⟩) sampleDom).nextPageBtnDisabled
        = false
      ∧ (fetchCitiesResume 2 (citiesSuccess 200 "OK" ⟨[], 2, 4⟩) sampleDom).currentPageSpan
        = "Page 2 of 4" :=
  ⟨(fetchCities_page2of4 2 sampleDom 200 "OK" []).2.1.mpr (by decide),
   (fetchCities_page2of4 2 sampleDom 200 "OK" []).2.2.mpr (by decide),
   (fetchCities_page2of4 2 sampleDom 200 "OK" []).1⟩

/-- C4: for every requested page `n`, every prior state and every successful
response with body `data`, `fetchCities(n)` leaves `currentPage = data.pageNumber`
and `totalPages = data.totalPages`; the "previous" control is disabled exactly
when `n = 1` and the "next" control exactly when `n = data.totalPages`, where
`n` is the requested page and not `data.pageNumber`. -/
theorem fetchCities_success_page_state (n : Int) (s : State) (status : Nat)
    (statusText : String) (data : CitiesPage) :
    (fetchCitiesResume n (citiesSuccess status statusText data) s).currentPage
        = data.pageNumber
      ∧ (fetchCitiesResume n (citiesSuccess status statusText data) s).totalPages
        = data.totalPages
      ∧ ((fetchCitiesResume n (citiesSuccess status statusText data) s).prevPageBtnDisabled
          = true ↔ n = 1)
      ∧ ((fetchCitiesResume n (citiesSuccess status statusText data) s).nextPageBtnDisabled
          = true ↔ n = data.totalPages) := by
  rw [fetchCitiesResume_success]
  simp

/-- Witness of C4: page 1 requested, the response says page 2 of 4; the
"previous" control is disabled because the requested page is 1. -/
theorem fetchCities_success_page_state_witness :
    (fetchCitiesResume 1 (citiesSuccess 200 "OK" ⟨[], 2, 4⟩) sampleDom).currentPage = 2
      ∧ (fetchCitiesResume 1 (citiesSuccess 200 "OK" ⟨[], 2, 4⟩) sampleDom).totalPages = 4
      ∧ (fetchCitiesResume 1 (citiesSuccess 200 "OK" ⟨[], 2, 4⟩) sampleDom).prevPageBtnDisabled
          = true :=
  ⟨(fetchCities_success_page_state 1 sampleDom 200 "OK" ⟨[], 2, 4⟩).1,
   (fetchCities_success_page_state 1 sampleDom 200 "OK" ⟨[], 2, 4⟩).2.1,
   (fetchCities_success_page_state 1 sampleDom 200 "OK" ⟨[], 2, 4⟩).2.2.1.mpr rfl⟩

/-! ## The page-state invariant -/

/-- The synchronous prefix of `fetchCities` does not write the page variables. -/
theorem fetchCitiesStart_pageInvariant (page : Int) (s : State) (h : PageInvariant s) :
    PageInvariant (fetchCitiesStart page s) := h

/-- The "previous" listener keeps `1 ≤ currentPage ≤ totalPages`. -/
theorem prevPageBtnClick_pageInvariant (s : State) (h : PageInvariant s) :
    PageInvariant (prevPageBtnClick s) := by
  unfold prevPageBtnClick
  split
  · next hgt =>
    apply fetchCitiesStart_pageInvariant
    have h2 := h.2
    constructor <;> simp only [] <;> omega
  · exact h

/-- The "next" listener keeps `1 ≤ currentPage ≤ totalPages`. -/
theorem nextPageBtnClick_pageInvariant (s : State) (h : PageInvariant s) :
    PageInvariant (nextPageBtnClick s) := by
  unfold nextPageBtnClick
  split
  · next hlt =>
    apply fetchCitiesStart_pageInvariant
    have h1 := h.1
    constructor <;> simp only [] <;> omega
  · exact h

/-- The weather lookup never writes the page variables. -/
theorem getWeatherBtnClick_pageInvariant (s : State) (h : PageInvariant s) :
    PageInvariant (getWeatherBtnClick s) := by
  show PageInvariant
    (if s.citySelectValue ≠ "" then fetchWeatherStart s.citySelectValue s
     else displayError "Please select a city." s)
  by_cases hv : s.citySelectValue ≠ ""
  · rw [if_pos hv]
    exact h
  · rw [if_neg hv]
    exact h

/-- The continuation of `fetchWeather` never writes the page variables. -/
theorem fetchWeatherResume_page (upper : Char → String)
    (r : FetchResult WeatherData) (s : State) :
    (fetchWeatherResume upper r s).currentPage = s.currentPage
      ∧ (fetchWeatherResume upper r s).totalPages = s.totalPages := by
  rcases r with m | ⟨ok, st, tx, j⟩
  · simp [fetchWeatherResume, fetchWeatherTry, displayError]
  · cases ok <;> cases j <;> by_cases h404 : st = 404 <;>
      simp [fetchWeatherResume, fetchWeatherTry, displayError, displayWeather, h404]

/-- The continuation of `fetchWeather` keeps `1 ≤ currentPage ≤ totalPages`. -/
theorem fetchWeatherResume_pageInvariant (upper : Char → String)
    (r : FetchResult WeatherData) (s : State) (h : PageInvariant s) :
    PageInvariant (fetchWeatherResume upper r s) := by
  unfold PageInvariant
  rw [(fetchWeatherResume_page upper r s).1, (fetchWeatherResume_page upper r s).2]
  exact h

/-- The continuation of `fetchCities` keeps the invariant when the page it
receives is in range. -/
theorem fetchCitiesResume_pageInvariant (page : Int) (i : Nat)
    (r : FetchResult CitiesPage) (s : State) (h : PageInvariant s)
    (hr : (Event.citiesResponse i r).pageInRange = true) :
    PageInvariant (fetchCitiesResume page r s) := by
  rcases r with m | ⟨ok, st, tx, _ | data⟩
  · exact h
  · cases ok <;> exact h
  · cases ok
    · exact h
    · have hs := fetchCitiesResume_success page st tx data s
      unfold citiesSuccess at hs
      rw [hs]
      simp [Event.pageInRange] at hr
      exact hr

/-- One turn of the event loop keeps the invariant. -/
theorem step_pageInvariant (upper : Char → String) (s s' : State) (e : Event)
    (h : PageInvariant s) (he : e.pageInRange = true) (hstep : step upper s e = some s') :
    PageInvariant s' := by
  cases e with
  | domContentLoaded =>
    simp only [step, Option.some.injEq] at hstep
    subst hstep
    exact h
  | prevPageClick =>
    simp only [step, Option.some.injEq] at hstep
    subst hstep
    exact prevPageBtnClick_pageInvariant s h
  | nextPageClick =>
    simp only [step, Option.some.injEq] at hstep
    subst hstep
    exact nextPageBtnClick_pageInvariant s h
  | getWeatherClick =>
    simp only [step, Option.some.injEq] at hstep
    subst hstep
    exact getWeatherBtnClick_pageInvariant s h
  | selectCity value =>
    simp only [step, Option.some.injEq] at hstep
    subst hstep
    exact h
  | citiesResponse i r =>
    simp only [step] at hstep
    split at hstep
    · simp only [Option.some.injEq] at hstep
      subst hstep
      exact fetchCitiesResume_pageInvariant _ i r _ h he
    · exact absurd hstep (by simp)
  | weatherResponse i r =>
    simp only [step] at hstep
    split at hstep
    · simp only [Option.some.injEq] at hstep
      subst hstep
      exact fetchWeatherResume_pageInvariant upper r _ h
    · exact absurd hstep (by simp)

/-- Every run from a state that satisfies the invariant ends in a state that
satisfies it, when the successful city pages it receives are in range. -/
theorem run_pageInvariant (upper : Char → String) (evs : List Event) :
    ∀ (s s' : State), PageInvariant s → (∀ e ∈ evs, e.pageInRange = true) →
      run upper s evs = some s' → PageInvariant s' := by
  induction evs with
  | nil =>
    intro s s' h _ hrun
    simp only [run, Option.some.injEq] at hrun
    subst hrun
    exact h
  | cons e es ih =>
    intro s s' h hr hrun
    simp only [run] at hrun
    split at hrun
    · next s₁ hstep =>
      exact ih s₁ s' (step_pageInvariant upper s s₁ e h (hr e (by simp)) hstep)
        (fun e' he' => hr e' (by simp [he'])) hrun
    · exact absurd hrun (by simp)

/-- The state after loading the script satisfies the invariant: `1 ≤ 1 ≤ 4`. -/
theorem initialState_pageInvariant (dom : State) : PageInvariant (initialState dom) := by
  constructor <;> simp [initialState]

/-- C5: from the initial state (`currentPage = 1`, `totalPages = 4`), every
state reached by a sequence of events (clicks, failed requests and successful
responses, delivered in any order) that contains at least one successful
city-page response satisfies `1 ≤ currentPage ≤ totalPages`, provided every
successful city-page response in the sequence has `1 ≤ pageNumber ≤ totalPages`. -/
theorem page_invariant_after_response (upper : Char → String) (dom : State)
    (evs : List Event) (s : State)
    (hrun : run upper (initialState dom) evs = some s)
    (hrange : ∀ e ∈ evs, e.pageInRange = true)
    (hsucc : ∃ e ∈ evs, e.isCitiesSuccess = true) :
    1 ≤ s.currentPage ∧ s.currentPage ≤ s.totalPages :=
  have _ := hsucc
  run_pageInvariant upper evs (initialState dom) s (initialState_pageInvariant dom) hrange hrun

/-- Witness of C5: the sample session runs to the end, contains successful
responses, and ends on page 1 of 3. -/
theorem page_invariant_after_response_witness :
    ∃ s, run asciiUpper (initialState sampleDom) sampleSession = some s
      ∧ s.currentPage = 1 ∧ s.totalPages = 3
      ∧ (1 ≤ s.currentPage ∧ s.currentPage ≤ s.totalPages) :=
  ⟨(run asciiUpper (initialState sampleDom) sampleSession).getD sampleDom, by decide,
    by decide, by decide,
    page_invariant_after_response asciiUpper sampleDom sampleSession _ (by decide)
      (by decide) (by decide)⟩

/-! ## Errors of the city-page request -/

/-- The continuation of `fetchCities` on a failed request only writes the error
message. -/
theorem fetchCitiesResume_failure (page : Int) (r : FetchResult CitiesPage) (s : State)
    (hfail : r.isFailure = true) :
    fetchCitiesResume page r s =
      displayError "Failed to load cities. Please try again later." s := by
  rcases r with m | ⟨ok, st, tx, j⟩
  · rfl
  · cases ok
    · rfl
    · simp [FetchResult.isFailure] at hfail

/-- C10: for every requested page `n`, every prior state and every failed
request (network error, or a non-success status whatever it is), running
`fetchCities(n)` to its end leaves the error message exactly
`Failed to load cities. Please try again later.` and leaves `currentPage`,
`totalPages`, the page label and both `disabled` flags as they were when
`fetchCities` was called.  Nothing is rolled back: after a "previous" click on
a page above 1 followed by the failure, `currentPage` is the decremented
value, and after a "next" click below the last page it is the incremented one. -/
theorem fetchCities_failure_no_rollback (n : Int) (s : State) (r : FetchResult CitiesPage)
    (hfail : r.isFailure = true) :
    (fetchCitiesResume n r (fetchCitiesStart n s)).errorMessage
        = "Failed to load cities. Please try again later."
      ∧ (fetchCitiesResume n r (fetchCitiesStart n s)).currentPage = s.currentPage
      ∧ (fetchCitiesResume n r (fetchCitiesStart n s)).totalPages = s.totalPages
      ∧ (fetchCitiesResume n r (fetchCitiesStart n s)).currentPageSpan = s.currentPageSpan
      ∧ (fetchCitiesResume n r (fetchCitiesStart n s)).prevPageBtnDisabled
          = s.prevPageBtnDisabled
      ∧ (fetchCitiesResume n r (fetchCitiesStart n s)).nextPageBtnDisabled
          = s.nextPageBtnDisabled
      ∧ (1 < s.currentPage →
          (fetchCitiesResume (s.currentPage - 1) r (prevPageBtnClick s)).currentPage
            = s.currentPage - 1)
      ∧ (s.currentPage < s.totalPages →
          (fetchCitiesResume (s.currentPage + 1) r (nextPageBtnClick s)).currentPage
            = s.currentPage + 1) := by
  refine ⟨?_, ?_, ?_, ?_, ?_, ?_, ?_, ?_⟩
  all_goals first
    | (rw [fetchCitiesResume_failure _ r _ hfail]; rfl)
    | (intro h
       rw [fetchCitiesResume_failure _ r _ hfail]
       simp [prevPageBtnClick, nextPageBtnClick, h, displayError, fetchCitiesStart,
         clearMessages, displayMessage])

/-- Witness of C10: on page 4 of 4, a "previous" click whose request is
rejected leaves `currentPage = 3` and the label `Page 4 of 4`. -/
theorem fetchCities_failure_no_rollback_witness :
    (FetchResult.rejected "Failed to fetch" : FetchResult CitiesPage).isFailure = true
      ∧ (fetchCitiesResume 3 (.rejected "Failed to fetch")
          (prevPageBtnClick stateOnLastPage)).currentPage = 3
      ∧ (fetchCitiesResume 3 (.rejected "Failed to fetch")
          (fetchCitiesStart 3 stateOnLastPage)).currentPageSpan = "Page 4 of 4" :=
  ⟨rfl,
   (fetchCities_failure_no_rollback 3 stateOnLastPage (.rejected "Failed to fetch") rfl).2.2.2.2.2.2.1
     (by decide),
   (fetchCities_failure_no_rollback 3 stateOnLastPage (.rejected "Failed to fetch") rfl).2.2.2.1⟩

/-! ## Weather lookup -/

/-- The listener of the get-weather button with nothing selected. -/
theorem getWeatherBtnClick_unselected (s : State) (h : s.citySelectValue = "") :
    getWeatherBtnClick s = displayError "Please select a city." s := by
  show (if s.citySelectValue ≠ "" then fetchWeatherStart s.citySelectValue s
    else displayError "Please select a city." s) = _
  rw [if_neg (by simp [h])]

/-- C6: when the selected value of `citySelect` is the empty string, the
listener of the get-weather button sets the error message to exactly
`Please select a city.` and changes nothing else: no request is added to
`pending` and no call of `fetchWeather` is logged. -/
theorem getWeatherBtnClick_empty_selection (s : State) (h : s.citySelectValue = "") :
    getWeatherBtnClick s = { s with errorMessage := "Please select a city." }
      ∧ (getWeatherBtnClick s).errorMessage = "Please select a city."
      ∧ (getWeatherBtnClick s).pending = s.pending
      ∧ (getWeatherBtnClick s).calls = s.calls := by
  rw [getWeatherBtnClick_unselected s h]
  exact ⟨rfl, rfl, rfl, rfl⟩

/-- Witness of C6 on the sample DOM, whose selection is empty. -/
theorem getWeatherBtnClick_empty_selection_witness :
    sampleDom.citySelectValue = ""
      ∧ (getWeatherBtnClick sampleDom).errorMessage = "Please select a city."
      ∧ (getWeatherBtnClick sampleDom).pending = []
      ∧ (getWeatherBtnClick sampleDom).calls = [] :=
  ⟨rfl, (getWeatherBtnClick_empty_selection sampleDom rfl).2⟩

/-- A message that starts with `Error fetching weather: ` is not empty. -/
theorem errorFetchingWeather_ne_empty (rest : String) :
    "Error fetching weather: " ++ rest ≠ "" := by
  intro h
  have hlen := congrArg String.length h
  rw [String.length_append] at hlen
  have h24 : "Error fetching weather: ".length = 24 := by decide
  have h0 : "".length = 0 := by decide
  omega

/-- The continuation of `fetchWeather` on a response with a non-success status. -/
theorem fetchWeatherResume_httpError (upper : Char → String) (status : Nat)
    (statusText : String) (json : Except String WeatherData) (s : State) :
    fetchWeatherResume upper (httpError status statusText json) s =
      displayError
        (if status = 404 then "City not found."
         else "Error fetching weather: " ++ toString status ++ " " ++ statusText) s := by
  by_cases h404 : status = 404
  · simp [fetchWeatherResume, fetchWeatherTry, httpError, h404]
  · have hne := errorFetchingWeather_ne_empty (toString status ++ " " ++ statusText)
    simp only [← String.append_assoc] at hne
    simp [fetchWeatherResume, fetchWeatherTry, httpError, h404, hne]

/-- C7: for every city name and every response with a non-success status `s`
and status text `t`, `fetchWeather` leaves the error message exactly
`City not found.` when `s = 404` and exactly `Error fetching weather: s t`
otherwise; `displayWeather` is not called (the call log only gains the call of
`fetchWeather`) and the result area is left as the continuation found it. -/
theorem fetchWeather_http_error (upper : Char → String) (cityName : String) (status : Nat)
    (statusText : String) (json : Except String WeatherData) (s : State) :
    (fetchWeatherResume upper (httpError status statusText json)
        (fetchWeatherStart cityName s)).errorMessage
        = (if status = 404 then "City not found."
           else "Error fetching weather: " ++ toString status ++ " " ++ statusText)
      ∧ (fetchWeatherResume upper (httpError status statusText json)
          (fetchWeatherStart cityName s)).calls = s.calls ++ [Call.fetchWeather cityName]
      ∧ (fetchWeatherResume upper (httpError status statusText json) s).calls = s.calls
      ∧ (fetchWeatherResume upper (httpError status statusText json) s).weatherResult
          = s.weatherResult := by
  rw [fetchWeatherResume_httpError, fetchWeatherResume_httpError]
  exact ⟨rfl, rfl, rfl, rfl⟩

/-- Witness of C7: the messages for status 404 and for status 500. -/
theorem fetchWeather_http_error_witness :
    (fetchWeatherResume asciiUpper (httpError 404 "Not Found" (.error "no body"))
        (fetchWeatherStart "Atlantis" sampleDom)).errorMessage = "City not found."
      ∧ (fetchWeatherResume asciiUpper (httpError 500 "Internal Server Error" (.ok sampleWeather))
        (fetchWeatherStart "Paris" sampleDom)).errorMessage
          = "Error fetching weather: 500 Internal Server Error" :=
  ⟨(fetchWeather_http_error asciiUpper "Atlantis" 404 "Not Found" (.error "no body")
      sampleDom).1,
   (fetchWeather_http_error asciiUpper "Paris" 500 "Internal Server Error" (.ok sampleWeather)
      sampleDom).1⟩

/-- The string `capitalizeFirstLetter` returns, by the shape of its argument. -/
theorem capitalizeFirstLetter_eq (upper : Char → String) (s : String) :
    capitalizeFirstLetter upper s =
      match s.toList with
      | [] => ""
      | c :: rest => upper c ++ String.mk rest := by
  rcases s with ⟨l⟩
  cases l with
  | nil => rfl
  | cons c rest =>
    show String.join [upper c] ++ String.mk rest = upper c ++ String.mk rest
    have hj : String.join [upper c] = upper c := by
      apply String.ext
      simp [String.join]
    rw [hj]

/-- C8: for every string `s`, `capitalizeFirstLetter(s)` is the upper-casing of
the first character of `s` followed by the rest of `s` unchanged, and the empty
string is mapped to the empty string.  Hence, when `c` upper-cases to `C`,
`displayWeather` renders the description `clear sky` as `Clear sky`, and it
inserts `city`, `temperature`, `humidity` and `windSpeed` as they are. -/
theorem capitalizeFirstLetter_displayWeather (upper : Char → String) :
    (∀ s : String, capitalizeFirstLetter upper s =
        match s.toList with
        | [] => ""
        | c :: rest => upper c ++ String.mk rest)
      ∧ capitalizeFirstLetter upper "" = ""
      ∧ (upper 'c' = "C" → ∀ (data : WeatherData) (st : State),
          data.description = "clear sky" →
          (displayWeather upper data st).weatherResult =
            "\n        <h2>Weather in " ++ data.city
              ++ "</h2>\n        <p><strong>Temperature:</strong> " ++ data.temperature
              ++ "</p>\n        <p><strong>Description:</strong> " ++ "Clear sky"
              ++ "</p>\n        <p><strong>Humidity:</strong> " ++ data.humidity
              ++ "</p>\n        <p><strong>Wind Speed:</strong> " ++ data.windSpeed
              ++ "</p>\n    ") := by
  refine ⟨capitalizeFirstLetter_eq upper, rfl, ?_⟩
  intro hc data st hd
  have hcap : capitalizeFirstLetter upper data.description = "Clear sky" := by
    rw [capitalizeFirstLetter_eq, hd]
    show upper 'c' ++ "lear sky" = "Clear sky"
    rw [hc]
    decide
  show weatherTemplate data.city data.temperature
      (capitalizeFirstLetter upper data.description) data.humidity data.windSpeed = _
  rw [hcap]
  rfl

/-- Witness of C8 with the ASCII upper-casing and the sample weather body. -/
theorem capitalizeFirstLetter_displayWeather_witness :
    asciiUpper 'c' = "C" ∧ sampleWeather.description = "clear sky"
      ∧ capitalizeFirstLetter asciiUpper "clear sky" = "Clear sky"
      ∧ (displayWeather asciiUpper sampleWeather sampleDom).weatherResult =
          "\n        <h2>Weather in Paris</h2>\n        <p><strong>Temperature:</strong> 21</p>\n        <p><strong>Description:</strong> Clear sky</p>\n        <p><strong>Humidity:</strong> 40</p>\n        <p><strong>Wind Speed:</strong> 3</p>\n    " :=
  ⟨by decide, rfl,
   (capitalizeFirstLetter_displayWeather asciiUpper).1 "clear sky",
   (capitalizeFirstLetter_displayWeather asciiUpper).2.2 (by decide) sampleWeather sampleDom rfl⟩

/-- C9, as stated, fails.  With a weather result for Paris on display: a click
with an empty selection sets the error message and leaves the Paris result in
the result area; a click with Paris selected whose request gets status 500, or
is rejected, sets the error message and leaves the loading message in the
result area. -/
theorem weather_lookup_output_counterexample :
    ((getWeatherBtnClick stateShowingParisUnselected).errorMessage = "Please select a city."
        ∧ (getWeatherBtnClick stateShowingParisUnselected).weatherResult
            = stateShowingParisUnselected.weatherResult
        ∧ stateShowingParisUnselected.weatherResult
            = weatherTemplate "Paris" "21" "Clear sky" "40" "3")
      ∧ ((fetchWeatherResume asciiUpper (httpError 500 "Internal Server Error" (.error ""))
            (getWeatherBtnClick stateShowingParis)).errorMessage
            = "Error fetching weather: 500 Internal Server Error"
        ∧ (fetchWeatherResume asciiUpper (httpError 500 "Internal Server Error" (.error ""))
            (getWeatherBtnClick stateShowingParis)).weatherResult
            = "<p>Fetching weather data...</p>")
      ∧ ((fetchWeatherResume asciiUpper (.rejected "Failed to fetch")
            (getWeatherBtnClick stateShowingParis)).errorMessage = "Failed to fetch"
        ∧ (fetchWeatherResume asciiUpper (.rejected "Failed to fetch")
            (getWeatherBtnClick stateShowingParis)).weatherResult
            = "<p>Fetching weather data...</p>") :=
  ⟨⟨rfl, rfl, rfl⟩, ⟨rfl, rfl⟩, ⟨rfl, rfl⟩⟩

/-- The listener of the get-weather button with a city selected. -/
theorem getWeatherBtnClick_selected (s : State) (h : s.citySelectValue ≠ "") :
    getWeatherBtnClick s = fetchWeatherStart s.citySelectValue s := by
  show (if s.citySelectValue ≠ "" then fetchWeatherStart s.citySelectValue s
    else displayError "Please select a city." s) = _
  rw [if_pos h]

/-- C9, amended: for every prior state, a weather lookup that runs from the
click to its completion with no other event in between ends as follows.  On
success the result area holds the new result and the error area is empty.  On
a response with a non-success status or a network error the error area holds
the new error and the result area holds the loading message
`<p>Fetching weather data...</p>` in place of the prior output.  On an empty
selection the error area holds `Please select a city.` and the result area is
left as it was. -/
theorem weather_lookup_output (upper : Char → String) (s : State) :
    (s.citySelectValue ≠ "" → ∀ (status : Nat) (statusText : String) (data : WeatherData),
        (fetchWeatherResume upper (weatherSuccess status statusText data)
            (getWeatherBtnClick s)).weatherResult
          = weatherTemplate data.city data.temperature
              (capitalizeFirstLetter upper data.description) data.humidity data.windSpeed
        ∧ (fetchWeatherResume upper (weatherSuccess status statusText data)
            (getWeatherBtnClick s)).errorMessage = "")
      ∧ (s.citySelectValue ≠ "" →
          ∀ (status : Nat) (statusText : String) (json : Except String WeatherData),
        (fetchWeatherResume upper (httpError status statusText json)
            (getWeatherBtnClick s)).errorMessage
          = (if status = 404 then "City not found."
             else "Error fetching weather: " ++ toString status ++ " " ++ statusText)
        ∧ (fetchWeatherResume upper (httpError status statusText json)
            (getWeatherBtnClick s)).weatherResult = "<p>Fetching weather data...</p>")
      ∧ (s.citySelectValue ≠ "" → ∀ (message : String),
        (fetchWeatherResume upper (.rejected message) (getWeatherBtnClick s)).errorMessage
          = (if message ≠ "" then message
             else "Failed to fetch weather data. Please try again later.")
        ∧ (fetchWeatherResume upper (.rejected message) (getWeatherBtnClick s)).weatherResult
          = "<p>Fetching weather data...</p>")
      ∧ (s.citySelectValue = "" →
        (getWeatherBtnClick s).errorMessage = "Please select a city."
        ∧ (getWeatherBtnClick s).weatherResult = s.weatherResult) := by
  refine ⟨?_, ?_, ?_, ?_⟩
  · intro h status statusText data
    rw [getWeatherBtnClick_selected s h]
    exact ⟨rfl, rfl⟩
  · intro h status statusText json
    rw [getWeatherBtnClick_selected s h, fetchWeatherResume_httpError]
    exact ⟨rfl, rfl⟩
  · intro h message
    rw [getWeatherBtnClick_selected s h]
    exact ⟨rfl, rfl⟩
  · intro h
    rw [getWeatherBtnClick_unselected s h]
    exact ⟨rfl, rfl⟩

/-- Witness of the amended C9: with Paris selected a successful lookup shows
the new result with an empty error area, and with nothing selected the click
leaves the Paris result on display. -/
theorem weather_lookup_output_witness :
    (stateShowingParis.citySelectValue ≠ ""
        ∧ (fetchWeatherResume asciiUpper (weatherSuccess 200 "OK" sampleWeather)
            (getWeatherBtnClick stateShowingParis)).weatherResult
          = weatherTemplate "Paris" "21" "Clear sky" "40" "3"
        ∧ (fetchWeatherResume asciiUpper (weatherSuccess 200 "OK" sampleWeather)
            (getWeatherBtnClick stateShowingParis)).errorMessage = "")
      ∧ (stateShowingParisUnselected.citySelectValue = ""
        ∧ (getWeatherBtnClick stateShowingParisUnselected).errorMessage
          = "Please select a city."
        ∧ (getWeatherBtnClick stateShowingParisUnselected).weatherResult
          = stateShowingParisUnselected.weatherResult) :=
  ⟨⟨by decide,
    (weather_lookup_output asciiUpper stateShowingParis).1 (by decide) 200 "OK" sampleWeather⟩,
   ⟨rfl, (weather_lookup_output asciiUpper stateShowingParisUnselected).2.2.2 rfl⟩⟩

end WeatherClient
